import Mathlib

/-!
Verification of the catalog core of the SecurityBoat frontend
(src/src/App.js): the deterministic augmentation of raw items with a
category and a price, the filter/sort pipeline of the product list, and
the catalog load flow with its session-token handling.

Modelling conventions:
* Item ids are non-negative integers (the data model: an integer or a
  numeric string), embedded as Nat.  The field RawItem.id is the result
  of the JavaScript coercion Number(photo.id): some n for a numeric id,
  none when the id is absent or non-numeric (Number yields NaN).
* Math.random() samples are passed explicitly as a pair num/den with
  num < den, standing for a real in [0, 1); Math.floor(r * scale) is
  num * scale / den in Nat arithmetic.
* All JavaScript numbers involved are integers, so Math.floor is the
  identity at the points where the source applies it.
-/

namespace App

/-- The fixed ordered category labels (App.js line 208). -/
def categories : List String := ["Mobile", "Laptop", "Accessories", "Home", "Grocery"]

/-- A raw catalog item as fetched.  The id field holds Number(photo.id):
none models NaN (id absent or non-numeric). -/
structure RawItem where
  id : Option Nat
  title : String
  url : String
  thumbnailUrl : String
deriving DecidableEq

/-- A raw item augmented with the derived category and price
(the spread { ...photo, category, price } keeps the original fields). -/
structure EnrichedItem where
  id : Option Nat
  title : String
  url : String
  thumbnailUrl : String
  category : String
  price : Nat
deriving DecidableEq

/-- Math.floor(r * scale) for the random unit r = num / den. -/
def mathFloorScale (scale num den : Nat) : Nat := num * scale / den

/-- Number(photo.id) || fallback (App.js line 211): JavaScript takes the
fallback when the coerced id is NaN (modelled none) or the falsy number 0. -/
def jsIdOr (idNum : Option Nat) (fallback : Nat) : Nat :=
  match idNum with
  | some n => if n = 0 then fallback else n
  | none => fallback

/-- categories[id % categories.length] (line 212); the index is always
below 5, so the default value is unreachable. -/
def deriveCategory (id : Nat) : String := categories.getD (id % categories.length) ""

/-- Math.floor(((id * 97) % 149500) + 500) (line 214). -/
def derivePrice (id : Nat) : Nat := id * 97 % 149500 + 500

/-- ProductList.augment (lines 210-216); the fallback draw is
Math.floor(Math.random() * 1000), with the random unit given as num/den. -/
def augment (photo : RawItem) (num den : Nat) : EnrichedItem :=
  { id := photo.id, title := photo.title, url := photo.url,
    thumbnailUrl := photo.thumbnailUrl,
    category := deriveCategory (jsIdOr photo.id (mathFloorScale 1000 num den)),
    price := derivePrice (jsIdOr photo.id (mathFloorScale 1000 num den)) }

/-- The inline re-derivation inside ProductDetails (lines 322-326):
textually identical to augment except that the fallback draw is
Math.floor(Math.random() * 10000). -/
def detailsDerive (photo : RawItem) (num den : Nat) : EnrichedItem :=
  { id := photo.id, title := photo.title, url := photo.url,
    thumbnailUrl := photo.thumbnailUrl,
    category := deriveCategory (jsIdOr photo.id (mathFloorScale 10000 num den)),
    price := derivePrice (jsIdOr photo.id (mathFloorScale 10000 num den)) }

/-- Claim C2 is false as stated at the numeric id 0: since the source
computes Number(photo.id) || fallback and 0 is falsy in JavaScript, an
item whose id is present and numeric but equal to 0 takes the random
fallback, so its category depends on the random draw (here the draws
1/1000 and 0/1000 give different categories, and the first one differs
from labels[0 mod 5] = Mobile). -/
theorem c2_counterexample :
    (augment { id := some 0, title := "p", url := "u", thumbnailUrl := "t" } 1 1000).category
      = "Laptop"
    ∧ (augment { id := some 0, title := "p", url := "u", thumbnailUrl := "t" } 0 1000).category
      = "Mobile" :=
  ⟨rfl, rfl⟩

/-- Claim C2 (amended): for every raw item whose id is present, numeric
and nonzero, augment returns category = labels[id mod 5] over the fixed
labels and price = ((id * 97) mod 149500) + 500, independently of the
random draw, hence deterministically; the random fallback is taken when
the id is absent, non-numeric, or the (falsy) number 0. -/
theorem c2_augment_deterministic (photo : RawItem) (n : Nat)
    (h : photo.id = some n) (hn : n ≠ 0) (num den num2 den2 : Nat) :
    (augment photo num den).category = categories.getD (n % categories.length) ""
    ∧ (augment photo num den).price = n * 97 % 149500 + 500
    ∧ augment photo num den = augment photo num2 den2 := by
  simp [augment, jsIdOr, h, hn, deriveCategory, derivePrice]

/-- Witness for c2_augment_deterministic at the concrete id 7. -/
theorem c2_augment_deterministic_witness :
    (augment { id := some 7, title := "", url := "", thumbnailUrl := "" } 3 4).category
      = categories.getD (7 % categories.length) ""
    ∧ (augment { id := some 7, title := "", url := "", thumbnailUrl := "" } 3 4).price
      = 7 * 97 % 149500 + 500
    ∧ augment { id := some 7, title := "", url := "", thumbnailUrl := "" } 3 4
      = augment { id := some 7, title := "", url := "", thumbnailUrl := "" } 5 6 :=
  c2_augment_deterministic _ 7 rfl (by decide) 3 4 5 6

/-- Claim C5: for every raw item whose id is numeric, the augmented price
lies in [500, 150000): the modulus is below 149500 and 500 is added. -/
theorem c5_price_range (photo : RawItem) (n : Nat) (h : photo.id = some n)
    (num den : Nat) :
    500 ≤ (augment photo num den).price ∧ (augment photo num den).price < 150000 := by
  have hmod : jsIdOr photo.id (mathFloorScale 1000 num den) * 97 % 149500 < 149500 :=
    Nat.mod_lt _ (by norm_num)
  simp only [augment, derivePrice]
  omega

/-- Witness for c5_price_range at the concrete id 3. -/
theorem c5_price_range_witness :
    500 ≤ (augment { id := some 3, title := "", url := "", thumbnailUrl := "" } 0 1).price
    ∧ (augment { id := some 3, title := "", url := "", thumbnailUrl := "" } 0 1).price
        < 150000 :=
  c5_price_range _ 3 rfl 0 1

/-- Claim C6: augment on an item with id 1 yields category Laptop and
price 597, and on an item with id 10 yields category Mobile and
price 1470, for any random draws. -/
theorem c6_examples (p q : RawItem) (num den num2 den2 : Nat)
    (hp : p.id = some 1) (hq : q.id = some 10) :
    (augment p num den).category = "Laptop" ∧ (augment p num den).price = 597
    ∧ (augment q num2 den2).category = "Mobile" ∧ (augment q num2 den2).price = 1470 := by
  simp [augment, jsIdOr, hp, hq, deriveCategory, derivePrice, categories]

/-- Witness for c6_examples at concrete items with ids 1 and 10. -/
theorem c6_examples_witness :
    (augment { id := some 1, title := "", url := "", thumbnailUrl := "" } 0 1).category
      = "Laptop"
    ∧ (augment { id := some 1, title := "", url := "", thumbnailUrl := "" } 0 1).price = 597
    ∧ (augment { id := some 10, title := "", url := "", thumbnailUrl := "" } 0 1).category
      = "Mobile"
    ∧ (augment { id := some 10, title := "", url := "", thumbnailUrl := "" } 0 1).price
      = 1470 :=
  c6_examples _ _ 0 1 0 1 rfl rfl

/-- Claim C9 is false as stated at the numeric id 0: both call sites take
their random fallback there (0 is falsy), and because the list view
scales the random unit by 1000 while the detail view scales it by 10000,
the same random unit 1/10000 gives fallback 0 on one side and 1 on the
other, hence different categories and prices for an item whose id is
present and numeric. -/
theorem c9_counterexample :
    (augment { id := some 0, title := "p", url := "u", thumbnailUrl := "t" } 1 10000).category
      = "Mobile"
    ∧ (detailsDerive { id := some 0, title := "p", url := "u", thumbnailUrl := "t" } 1 10000).category
      = "Laptop"
    ∧ (augment { id := some 0, title := "p", url := "u", thumbnailUrl := "t" } 1 10000).price
      = 500
    ∧ (detailsDerive { id := some 0, title := "p", url := "u", thumbnailUrl := "t" } 1 10000).price
      = 597 :=
  ⟨rfl, rfl, rfl, rfl⟩

/-- Claim C9 (amended): the list view augment and the detail view inline
derivation compute identical category and price for every item whose id
is numeric and nonzero, whatever the random draws; the fallbacks, taken
when the id is absent, non-numeric or zero, draw from [0, 1000) in the
list view and from [0, 10000) in the detail view. -/
theorem c9_augment_agree (photo : RawItem) (n : Nat)
    (h : photo.id = some n) (hn : n ≠ 0) (a b c d : Nat) :
    ((augment photo a b).category = (detailsDerive photo c d).category
      ∧ (augment photo a b).price = (detailsDerive photo c d).price)
    ∧ (∀ num den, num < den →
        mathFloorScale 1000 num den < 1000 ∧ mathFloorScale 10000 num den < 10000) := by
  constructor
  · simp [augment, detailsDerive, jsIdOr, h, hn]
  · intro num den hlt
    have hden : 0 < den := Nat.lt_of_le_of_lt (Nat.zero_le num) hlt
    constructor
    · have : num * 1000 < 1000 * den := by omega
      exact (Nat.div_lt_iff_lt_mul hden).mpr this
    · have : num * 10000 < 10000 * den := by omega
      exact (Nat.div_lt_iff_lt_mul hden).mpr this

/-- Witness for c9_augment_agree at the concrete id 12. -/
theorem c9_augment_agree_witness :
    ((augment { id := some 12, title := "", url := "", thumbnailUrl := "" } 1 2).category
        = (detailsDerive { id := some 12, title := "", url := "", thumbnailUrl := "" } 3 4).category
      ∧ (augment { id := some 12, title := "", url := "", thumbnailUrl := "" } 1 2).price
        = (detailsDerive { id := some 12, title := "", url := "", thumbnailUrl := "" } 3 4).price)
    ∧ (∀ num den, num < den →
        mathFloorScale 1000 num den < 1000 ∧ mathFloorScale 10000 num den < 10000) :=
  c9_augment_agree _ 12 rfl (by decide) 1 2 3 4

/-- Coerced content of a numeric filter text field.  The constructor
records what Number applied to the field text yields: unset is the empty
input (Number of the empty string is 0), nonNumeric is a text whose
coercion is NaN, and num v is a text coercing to the finite number v. -/
inductive PriceField where
  | unset
  | nonNumeric
  | num (v : Int)
deriving DecidableEq

/-- Number(field); none models NaN. -/
def jsNumber : PriceField → Option Int
  | .unset => some 0
  | .nonNumeric => none
  | .num v => some v

/-- Number(filters.minPrice) || -Infinity (line 264): none stands for
-Infinity; the falsy coercions NaN and 0 fall through to the default. -/
def lowerBound (f : PriceField) : Option Int :=
  match jsNumber f with
  | none => none
  | some v => if v = 0 then none else some v

/-- Number(filters.maxPrice) || Infinity (line 265): none stands for
Infinity; the falsy coercions NaN and 0 fall through to the default. -/
def upperBound (f : PriceField) : Option Int :=
  match jsNumber f with
  | none => none
  | some v => if v = 0 then none else some v

/-- p.price >= minP && p.price <= maxP (line 266), with none as the
corresponding infinite default. -/
def priceOk (minB maxB : Option Int) (price : Nat) : Bool :=
  (match minB with
   | none => true
   | some v => decide (v ≤ (price : Int)))
  && (match maxB with
      | none => true
      | some v => decide ((price : Int) ≤ v))

/-- hay.includes(pat) on character lists: pat occurs contiguously. -/
def infixCheck (pat : List Char) : List Char → Bool
  | [] => pat.isEmpty
  | c :: rest => pat.isPrefixOf (c :: rest) || infixCheck pat rest

/-- toLowerCase() on the character sequence of a string; the titles and
search texts involved are basic latin, where Char.toLower agrees with
the JavaScript conversion. -/
def lowerList (s : String) : List Char := s.toList.map Char.toLower

/-- p.title.toLowerCase().includes(filters.search.toLowerCase()) (line 259). -/
def titleMatch (search : String) (p : EnrichedItem) : Bool :=
  infixCheck (lowerList search) (lowerList p.title)

/-- The filter state of the product list (line 204): all fields are text
inputs; the price bounds are recorded through their numeric coercion. -/
structure FilterSpec where
  search : String
  category : String
  minPrice : PriceField
  maxPrice : PriceField
  sort : String
deriving DecidableEq

/-- Comparator (a, b) => a.price - b.price (line 267) as the le test of a
stable sort. -/
def priceAsc (a b : EnrichedItem) : Bool := decide (a.price ≤ b.price)

/-- Comparator (a, b) => b.price - a.price (line 268) as the le test of a
stable sort. -/
def priceDesc (a b : EnrichedItem) : Bool := decide (b.price ≤ a.price)

/-- Lines 258-260: if (filters.search) out = out.filter(title includes). -/
def searchStep (f : FilterSpec) (out : List EnrichedItem) : List EnrichedItem :=
  if f.search ≠ "" then out.filter (titleMatch f.search) else out

/-- Lines 261-263: if (filters.category) out = out.filter(category equal). -/
def categoryStep (f : FilterSpec) (out : List EnrichedItem) : List EnrichedItem :=
  if f.category ≠ "" then out.filter (fun p => decide (p.category = f.category)) else out

/-- Line 266: the unconditional price-bound filter. -/
def priceStep (f : FilterSpec) (out : List EnrichedItem) : List EnrichedItem :=
  out.filter (fun p => priceOk (lowerBound f.minPrice) (upperBound f.maxPrice) p.price)

/-- Lines 267-268: the two conditional stable sorts by price.
JavaScript Array.prototype.sort is stable, modelled by mergeSort. -/
def sortStep (f : FilterSpec) (out : List EnrichedItem) : List EnrichedItem :=
  let out1 := if f.sort = "asc" then out.mergeSort priceAsc else out
  if f.sort = "desc" then out1.mergeSort priceDesc else out1

/-- The pipeline of lines 257-266 before the sorting steps. -/
def filteredNoSort (items : List EnrichedItem) (f : FilterSpec) : List EnrichedItem :=
  priceStep f (categoryStep f (searchStep f items))

/-- ProductList.filtered (lines 256-270): slice, the three filters, then
the conditional sorts. -/
def filtered (items : List EnrichedItem) (f : FilterSpec) : List EnrichedItem :=
  sortStep f (filteredNoSort items f)

/-- Membership is preserved by the sorting step. -/
theorem mem_sortStep {f : FilterSpec} {l : List EnrichedItem} {p : EnrichedItem} :
    p ∈ sortStep f l ↔ p ∈ l := by
  by_cases h1 : f.sort = "asc" <;> by_cases h2 : f.sort = "desc" <;>
    simp [sortStep, h1, h2]

/-- Members of the price step satisfied the price predicate. -/
theorem mem_priceStep {f : FilterSpec} {l : List EnrichedItem} {p : EnrichedItem}
    (h : p ∈ priceStep f l) :
    p ∈ l ∧ priceOk (lowerBound f.minPrice) (upperBound f.maxPrice) p.price = true := by
  unfold priceStep at h
  exact ⟨(List.mem_filter.mp h).1, (List.mem_filter.mp h).2⟩

/-- Members of the category step match the category when one is set. -/
theorem mem_categoryStep {f : FilterSpec} {l : List EnrichedItem} {p : EnrichedItem}
    (h : p ∈ categoryStep f l) :
    p ∈ l ∧ (f.category ≠ "" → p.category = f.category) := by
  unfold categoryStep at h
  by_cases hc : f.category ≠ ""
  · rw [if_pos hc] at h
    refine ⟨(List.mem_filter.mp h).1, fun _ => ?_⟩
    have := (List.mem_filter.mp h).2
    simpa using this
  · rw [if_neg hc] at h
    exact ⟨h, fun hcc => absurd hcc hc⟩

/-- Members of the search step match the search text when one is set. -/
theorem mem_searchStep {f : FilterSpec} {l : List EnrichedItem} {p : EnrichedItem}
    (h : p ∈ searchStep f l) :
    p ∈ l ∧ (f.search ≠ "" → titleMatch f.search p = true) := by
  unfold searchStep at h
  by_cases hs : f.search ≠ ""
  · rw [if_pos hs] at h
    exact ⟨(List.mem_filter.mp h).1, fun _ => (List.mem_filter.mp h).2⟩
  · rw [if_neg hs] at h
    exact ⟨h, fun hss => absurd hss hs⟩

/-- Claim C3 is false as stated: a maxPrice field whose text coerces to
the number 0 is set and numeric, so the claim requires every output
price to be at most 0; but the source computes Number(filters.maxPrice)
|| Infinity and 0 is falsy, so the bound is dropped and an item of
price 597 stays in the output. -/
theorem c3_counterexample :
    filtered
        [{ id := some 1, title := "p", url := "u", thumbnailUrl := "t",
           category := "Laptop", price := 597 }]
        { search := "", category := "", minPrice := PriceField.unset,
          maxPrice := PriceField.num 0, sort := "" }
      = [{ id := some 1, title := "p", url := "u", thumbnailUrl := "t",
           category := "Laptop", price := 597 }]
    ∧ ¬((597 : Int) ≤ 0) := by
  constructor
  · rfl
  · decide

/-- Claim C3 (amended): every item of the pipeline output satisfies all
set criteria — the title contains the search text case-insensitively
when the search is non-empty, the category matches when one is set, and
each price bound whose field coerces to a nonzero number holds
inclusively; a bound that is unset, non-numeric, or coercing to the
falsy number 0 defaults to the corresponding infinity. -/
theorem c3_filtered_sound (items : List EnrichedItem) (f : FilterSpec)
    (p : EnrichedItem) (hp : p ∈ filtered items f) :
    (f.search ≠ "" → titleMatch f.search p = true)
    ∧ (f.category ≠ "" → p.category = f.category)
    ∧ (∀ v : Int, f.minPrice = PriceField.num v → v ≠ 0 → v ≤ (p.price : Int))
    ∧ (∀ v : Int, f.maxPrice = PriceField.num v → v ≠ 0 → (p.price : Int) ≤ v) := by
  have h0 : p ∈ filteredNoSort items f := by
    unfold filtered at hp
    exact mem_sortStep.mp hp
  unfold filteredNoSort at h0
  obtain ⟨h1, hpr⟩ := mem_priceStep h0
  obtain ⟨h2, hcat⟩ := mem_categoryStep h1
  obtain ⟨h3, hsea⟩ := mem_searchStep h2
  simp only [priceOk, Bool.and_eq_true] at hpr
  refine ⟨hsea, hcat, ?_, ?_⟩
  · intro v hv hv0
    have hlo := hpr.1
    rw [hv] at hlo
    simp only [lowerBound, jsNumber, if_neg hv0] at hlo
    simpa using hlo
  · intro v hv hv0
    have hhi := hpr.2
    rw [hv] at hhi
    simp only [upperBound, jsNumber, if_neg hv0] at hhi
    simpa using hhi

/-- Witness for c3_filtered_sound on a one-item list with a search text,
a category and nonzero bounds all satisfied. -/
theorem c3_filtered_sound_witness :
    (({ search := "ed", category := "Laptop", minPrice := PriceField.num 100,
         maxPrice := PriceField.num 1000, sort := "" } : FilterSpec).search ≠ ""
       → titleMatch "ed"
           { id := some 1, title := "Red Phone", url := "u", thumbnailUrl := "t",
             category := "Laptop", price := 597 } = true)
    ∧ (({ search := "ed", category := "Laptop", minPrice := PriceField.num 100,
           maxPrice := PriceField.num 1000, sort := "" } : FilterSpec).category ≠ ""
       → ({ id := some 1, title := "Red Phone", url := "u", thumbnailUrl := "t",
            category := "Laptop", price := 597 } : EnrichedItem).category = "Laptop")
    ∧ (∀ v : Int,
        ({ search := "ed", category := "Laptop", minPrice := PriceField.num 100,
           maxPrice := PriceField.num 1000, sort := "" } : FilterSpec).minPrice
            = PriceField.num v
        → v ≠ 0 → v ≤ ((597 : Nat) : Int))
    ∧ (∀ v : Int,
        ({ search := "ed", category := "Laptop", minPrice := PriceField.num 100,
           maxPrice := PriceField.num 1000, sort := "" } : FilterSpec).maxPrice
            = PriceField.num v
        → v ≠ 0 → ((597 : Nat) : Int) ≤ v) :=
  c3_filtered_sound
    [{ id := some 1, title := "Red Phone", url := "u", thumbnailUrl := "t",
       category := "Laptop", price := 597 }]
    { search := "ed", category := "Laptop", minPrice := PriceField.num 100,
      maxPrice := PriceField.num 1000, sort := "" }
    { id := some 1, title := "Red Phone", url := "u", thumbnailUrl := "t",
      category := "Laptop", price := 597 }
    (by decide)

/-- Claim C10: a price bound whose text coerces to the number 0 behaves
exactly as an absent bound (it is falsy, so the infinite default is
taken), and with both bounds at 0 the price test accepts every price. -/
theorem c10_zero_bound (items : List EnrichedItem) (f : FilterSpec) :
    filtered items { f with minPrice := PriceField.num 0 }
      = filtered items { f with minPrice := PriceField.unset }
    ∧ filtered items { f with maxPrice := PriceField.num 0 }
      = filtered items { f with maxPrice := PriceField.unset }
    ∧ ∀ price : Nat,
        priceOk (lowerBound (PriceField.num 0)) (upperBound (PriceField.num 0)) price
          = true :=
  ⟨rfl, rfl, fun _ => rfl⟩

/-- The ascending comparator is transitive. -/
theorem priceAsc_trans (a b c : EnrichedItem)
    (h1 : priceAsc a b = true) (h2 : priceAsc b c = true) : priceAsc a c = true := by
  simp only [priceAsc, decide_eq_true_eq] at h1 h2 ⊢
  omega

/-- The ascending comparator is total. -/
theorem priceAsc_total (a b : EnrichedItem) : priceAsc a b || priceAsc b a := by
  simp only [priceAsc, Bool.or_eq_true, decide_eq_true_eq]
  omega

/-- The descending comparator is transitive. -/
theorem priceDesc_trans (a b c : EnrichedItem)
    (h1 : priceDesc a b = true) (h2 : priceDesc b c = true) : priceDesc a c = true := by
  simp only [priceDesc, decide_eq_true_eq] at h1 h2 ⊢
  omega

/-- The descending comparator is total. -/
theorem priceDesc_total (a b : EnrichedItem) : priceDesc a b || priceDesc b a := by
  simp only [priceDesc, Bool.or_eq_true, decide_eq_true_eq]
  omega

/-- Stability of mergeSort, stated through filtering: the elements
satisfying a predicate on which the comparator never ties downward keep
their relative order through the sort. -/
theorem mergeSortFilterStable {α : Type _} (le : α → α → Bool) (pc : α → Bool)
    (htrans : ∀ a b c, le a b = true → le b c = true → le a c = true)
    (htotal : ∀ a b, le a b || le b a)
    (hpc : ∀ a b, pc a = true → pc b = true → le a b = true) (l : List α) :
    (l.mergeSort le).filter pc = l.filter pc := by
  have h1 : (l.filter pc).Pairwise fun a b => le a b = true :=
    List.pairwise_of_forall_mem_list fun a ha b hb =>
      hpc a b (List.of_mem_filter ha) (List.of_mem_filter hb)
  have h2 : List.Sublist (l.filter pc) (l.mergeSort le) :=
    List.sublist_mergeSort htrans htotal h1 (List.filter_sublist l)
  have h3 : List.Sublist ((l.filter pc).filter pc) ((l.mergeSort le).filter pc) := h2.filter pc
  have h4 : (l.filter pc).filter pc = l.filter pc :=
    List.filter_eq_self.mpr fun a ha => List.of_mem_filter ha
  rw [h4] at h3
  have h5 : List.Perm ((l.mergeSort le).filter pc) (l.filter pc) :=
    (List.mergeSort_perm l le).filter pc
  exact (h3.eq_of_length h5.length_eq.symm).symm

/-- The search step returns a sublist of its input. -/
theorem searchStep_sublist (f : FilterSpec) (l : List EnrichedItem) :
    List.Sublist (searchStep f l) l := by
  unfold searchStep
  split
  · exact List.filter_sublist l
  · exact List.Sublist.refl l

/-- The category step returns a sublist of its input. -/
theorem categoryStep_sublist (f : FilterSpec) (l : List EnrichedItem) :
    List.Sublist (categoryStep f l) l := by
  unfold categoryStep
  split
  · exact List.filter_sublist l
  · exact List.Sublist.refl l

/-- The price step returns a sublist of its input. -/
theorem priceStep_sublist (f : FilterSpec) (l : List EnrichedItem) :
    List.Sublist (priceStep f l) l :=
  List.filter_sublist l

/-- Claim C4: with sort asc the output prices are non-decreasing, with
sort desc non-increasing, in both cases equal-price items keep their
relative order from the unsorted pipeline output, which itself is an
order-preserving sublist of the input; with sort unset the output is
exactly the unsorted pipeline output. -/
theorem c4_sort_correct (items : List EnrichedItem) (f : FilterSpec) :
    (f.sort = "asc" → (filtered items f).Pairwise fun a b => a.price ≤ b.price)
    ∧ (f.sort = "desc" → (filtered items f).Pairwise fun a b => b.price ≤ a.price)
    ∧ (f.sort = "" → filtered items f = filteredNoSort items f)
    ∧ (∀ c : Nat,
        (filtered items f).filter (fun x => decide (x.price = c))
          = (filteredNoSort items f).filter fun x => decide (x.price = c))
    ∧ List.Sublist (filteredNoSort items f) items := by
  refine ⟨?_, ?_, ?_, ?_, ?_⟩
  · intro h1
    have h2 : f.sort ≠ "desc" := by rw [h1]; decide
    have hR : filtered items f = (filteredNoSort items f).mergeSort priceAsc := by
      simp only [filtered, sortStep, if_pos h1, if_neg h2]
    rw [hR]
    exact (List.sorted_mergeSort priceAsc_trans priceAsc_total _).imp
      fun h => by simpa [priceAsc] using h
  · intro h2
    have h1 : f.sort ≠ "asc" := by rw [h2]; decide
    have hR : filtered items f = (filteredNoSort items f).mergeSort priceDesc := by
      simp only [filtered, sortStep, if_pos h2, if_neg h1]
    rw [hR]
    exact (List.sorted_mergeSort priceDesc_trans priceDesc_total _).imp
      fun h => by simpa [priceDesc] using h
  · intro h0
    have h1 : f.sort ≠ "asc" := by rw [h0]; decide
    have h2 : f.sort ≠ "desc" := by rw [h0]; decide
    simp only [filtered, sortStep, if_neg h1, if_neg h2]
  · intro c
    by_cases h1 : f.sort = "asc"
    · have h2 : f.sort ≠ "desc" := by rw [h1]; decide
      simp only [filtered, sortStep, if_pos h1, if_neg h2]
      exact mergeSortFilterStable priceAsc _ priceAsc_trans priceAsc_total
        (fun a b ha hb => by
          simp only [decide_eq_true_eq] at ha hb
          simp [priceAsc, ha, hb]) _
    · by_cases h2 : f.sort = "desc"
      · simp only [filtered, sortStep, if_neg h1, if_pos h2]
        exact mergeSortFilterStable priceDesc _ priceDesc_trans priceDesc_total
          (fun a b ha hb => by
            simp only [decide_eq_true_eq] at ha hb
            simp [priceDesc, ha, hb]) _
      · simp only [filtered, sortStep, if_neg h1, if_neg h2]
  · exact ((priceStep_sublist f _).trans (categoryStep_sublist f _)).trans
      (searchStep_sublist f _)

/-- Witness for c4_sort_correct: an ascending sort of a two-item list. -/
theorem c4_sort_correct_witness :
    (filtered
        [{ id := some 1, title := "a", url := "", thumbnailUrl := "",
           category := "Laptop", price := 597 },
         { id := some 10, title := "b", url := "", thumbnailUrl := "",
           category := "Mobile", price := 1470 },
         { id := some 5, title := "c", url := "", thumbnailUrl := "",
           category := "Mobile", price := 985 }]
        { search := "", category := "", minPrice := PriceField.unset,
          maxPrice := PriceField.unset, sort := "asc" }).Pairwise
      fun a b => a.price ≤ b.price :=
  (c4_sort_correct _ _).1 rfl

/-- The search step fixes a list of items that all pass it. -/
theorem searchStep_eq_self {f : FilterSpec} {l : List EnrichedItem}
    (h : ∀ p ∈ l, f.search ≠ "" → titleMatch f.search p = true) :
    searchStep f l = l := by
  unfold searchStep
  by_cases hs : f.search ≠ ""
  · rw [if_pos hs]
    exact List.filter_eq_self.mpr fun a ha => h a ha hs
  · rw [if_neg hs]

/-- The category step fixes a list of items that all pass it. -/
theorem categoryStep_eq_self {f : FilterSpec} {l : List EnrichedItem}
    (h : ∀ p ∈ l, f.category ≠ "" → p.category = f.category) :
    categoryStep f l = l := by
  unfold categoryStep
  by_cases hc : f.category ≠ ""
  · rw [if_pos hc]
    exact List.filter_eq_self.mpr fun a ha => by simpa using h a ha hc
  · rw [if_neg hc]

/-- The price step fixes a list of items that all pass it. -/
theorem priceStep_eq_self {f : FilterSpec} {l : List EnrichedItem}
    (h : ∀ p ∈ l, priceOk (lowerBound f.minPrice) (upperBound f.maxPrice) p.price = true) :
    priceStep f l = l :=
  List.filter_eq_self.mpr h

/-- Claim C7: the pipeline is idempotent — running it again on its own
output with the same FilterSpec returns that output unchanged. -/
theorem c7_idempotent (items : List EnrichedItem) (f : FilterSpec) :
    filtered (filtered items f) f = filtered items f := by
  have hmem : ∀ p ∈ filtered items f, p ∈ filteredNoSort items f :=
    fun p hp => mem_sortStep.mp hp
  have hsea : ∀ p ∈ filtered items f, f.search ≠ "" → titleMatch f.search p = true :=
    fun p hp =>
      (mem_searchStep (mem_categoryStep (mem_priceStep (hmem p hp)).1).1).2
  have hcat : ∀ p ∈ filtered items f, f.category ≠ "" → p.category = f.category :=
    fun p hp => (mem_categoryStep (mem_priceStep (hmem p hp)).1).2
  have hpr : ∀ p ∈ filtered items f,
      priceOk (lowerBound f.minPrice) (upperBound f.maxPrice) p.price = true :=
    fun p hp => (mem_priceStep (hmem p hp)).2
  have hfix : filteredNoSort (filtered items f) f = filtered items f := by
    unfold filteredNoSort
    rw [searchStep_eq_self hsea, categoryStep_eq_self hcat, priceStep_eq_self hpr]
  have hsort : sortStep f (filtered items f) = filtered items f := by
    by_cases h1 : f.sort = "asc"
    · have h2 : f.sort ≠ "desc" := by rw [h1]; decide
      have hR : filtered items f = (filteredNoSort items f).mergeSort priceAsc := by
        simp only [filtered, sortStep, if_pos h1, if_neg h2]
      simp only [sortStep, if_pos h1, if_neg h2]
      rw [hR]
      exact List.mergeSort_of_sorted
        (List.sorted_mergeSort priceAsc_trans priceAsc_total _)
    · by_cases h2 : f.sort = "desc"
      · have hR : filtered items f = (filteredNoSort items f).mergeSort priceDesc := by
          simp only [filtered, sortStep, if_neg h1, if_pos h2]
        simp only [sortStep, if_neg h1, if_pos h2]
        rw [hR]
        exact List.mergeSort_of_sorted
          (List.sorted_mergeSort priceDesc_trans priceDesc_total _)
      · simp only [sortStep, if_neg h1, if_neg h2]
  calc filtered (filtered items f) f
      = sortStep f (filteredNoSort (filtered items f) f) := rfl
    _ = sortStep f (filtered items f) := by rw [hfix]
    _ = filtered items f := hsort

/-- A heap of JavaScript arrays, indexed by allocation order, used to
state what the pipeline mutates: slice and filter allocate fresh arrays,
sort mutates its receiver in place. -/
structure Store where
  arrays : List (List EnrichedItem)
deriving DecidableEq

/-- Content of the array at a reference (empty if dangling). -/
def Store.read (σ : Store) (r : Nat) : List EnrichedItem := σ.arrays.getD r []

/-- Allocate a fresh array and return its reference. -/
def Store.alloc (σ : Store) (a : List EnrichedItem) : Store × Nat :=
  ({ arrays := σ.arrays ++ [a] }, σ.arrays.length)

/-- Overwrite the array at a reference in place. -/
def Store.write (σ : Store) (r : Nat) (a : List EnrichedItem) : Store :=
  { arrays := σ.arrays.set r a }

theorem Store.read_alloc_lt {σ : Store} {a : List EnrichedItem} {r : Nat}
    (h : r < σ.arrays.length) : ((σ.alloc a).1).read r = σ.read r := by
  simp [Store.read, Store.alloc, List.getD_eq_getElem?_getD, List.getElem?_append_left h]

theorem Store.read_alloc_self (σ : Store) (a : List EnrichedItem) :
    ((σ.alloc a).1).read (σ.alloc a).2 = a := by
  simp [Store.read, Store.alloc, List.getD_eq_getElem?_getD,
    List.getElem?_append_right (Nat.le_refl σ.arrays.length)]

theorem Store.read_write_ne {σ : Store} {r r2 : Nat} {a : List EnrichedItem}
    (h : r2 ≠ r) : (σ.write r2 a).read r = σ.read r := by
  simp [Store.read, Store.write, List.getD_eq_getElem?_getD, List.getElem?_set_ne h]

theorem Store.read_write_self {σ : Store} {r : Nat} {a : List EnrichedItem}
    (h : r < σ.arrays.length) : (σ.write r a).read r = a := by
  simp [Store.read, Store.write, List.getD_eq_getElem?_getD, List.getElem?_set_self h]

/-- Line 258-260 as a store operation: filter allocates a fresh array. -/
def searchProg (f : FilterSpec) (s : Store × Nat) : Store × Nat :=
  if f.search ≠ "" then (s.1).alloc (((s.1).read s.2).filter (titleMatch f.search))
  else s

/-- Line 261-263 as a store operation: filter allocates a fresh array. -/
def categoryProg (f : FilterSpec) (s : Store × Nat) : Store × Nat :=
  if f.category ≠ "" then
    (s.1).alloc (((s.1).read s.2).filter fun p => decide (p.category = f.category))
  else s

/-- Line 266 as a store operation: the price filter always allocates. -/
def priceProg (f : FilterSpec) (s : Store × Nat) : Store × Nat :=
  (s.1).alloc (((s.1).read s.2).filter fun p =>
    priceOk (lowerBound f.minPrice) (upperBound f.maxPrice) p.price)

/-- Lines 267-268 as store operations: Array.prototype.sort mutates the
array out in place, so both conditional sorts write through the same
reference. -/
def sortProg (f : FilterSpec) (s : Store × Nat) : Store × Nat :=
  let σ5 := if f.sort = "asc" then (s.1).write s.2 (((s.1).read s.2).mergeSort priceAsc)
            else s.1
  (if f.sort = "desc" then σ5.write s.2 ((σ5.read s.2).mergeSort priceDesc) else σ5,
   s.2)

/-- ProductList.filtered (lines 256-270) with the array effects explicit:
items.slice() allocates the copy out, the filters rebind out to fresh
arrays, and the sorts mutate the final out in place. -/
def filteredProg (σ0 : Store) (itemsRef : Nat) (f : FilterSpec) : Store × Nat :=
  sortProg f (priceProg f (categoryProg f (searchProg f
    (σ0.alloc (σ0.read itemsRef)))))

/-- Invariant carried through the pipeline store operations: the current
reference is at least n and valid, every array below n is untouched, and
the current array holds the given content. -/
structure ProgInv (σ0 : Store) (n : Nat) (c : List EnrichedItem) (s : Store × Nat) : Prop where
  freshLe : n ≤ s.2
  validLt : s.2 < s.1.arrays.length
  readsLow : ∀ r < n, (s.1).read r = σ0.read r
  contentEq : (s.1).read s.2 = c

theorem progInv_alloc {σ0 : Store} {n : Nat} {c : List EnrichedItem} {s : Store × Nat}
    (h : ProgInv σ0 n c s) (a : List EnrichedItem) :
    ProgInv σ0 n a ((s.1).alloc a) := by
  refine ⟨?_, ?_, ?_, ?_⟩
  · exact Nat.le_of_lt (Nat.lt_of_le_of_lt h.freshLe h.validLt)
  · simp [Store.alloc]
  · intro r hr
    rw [Store.read_alloc_lt (Nat.lt_of_lt_of_le hr
      (Nat.le_trans h.freshLe (Nat.le_of_lt h.validLt)))]
    exact h.readsLow r hr
  · exact Store.read_alloc_self _ _

theorem progInv_searchProg {σ0 : Store} {n : Nat} {c : List EnrichedItem}
    {s : Store × Nat} (f : FilterSpec) (h : ProgInv σ0 n c s) :
    ProgInv σ0 n (searchStep f c) (searchProg f s) := by
  unfold searchProg searchStep
  by_cases hs : f.search ≠ ""
  · rw [if_pos hs, if_pos hs, ← h.contentEq]
    exact progInv_alloc h _
  · rw [if_neg hs, if_neg hs]
    exact h

theorem progInv_categoryProg {σ0 : Store} {n : Nat} {c : List EnrichedItem}
    {s : Store × Nat} (f : FilterSpec) (h : ProgInv σ0 n c s) :
    ProgInv σ0 n (categoryStep f c) (categoryProg f s) := by
  unfold categoryProg categoryStep
  by_cases hc : f.category ≠ ""
  · rw [if_pos hc, if_pos hc, ← h.contentEq]
    exact progInv_alloc h _
  · rw [if_neg hc, if_neg hc]
    exact h

theorem progInv_priceProg {σ0 : Store} {n : Nat} {c : List EnrichedItem}
    {s : Store × Nat} (f : FilterSpec) (h : ProgInv σ0 n c s) :
    ProgInv σ0 n (priceStep f c) (priceProg f s) := by
  unfold priceProg priceStep
  rw [← h.contentEq]
  exact progInv_alloc h _

theorem progInv_write {σ0 : Store} {n : Nat} {c : List EnrichedItem} {s : Store × Nat}
    (h : ProgInv σ0 n c s) (a : List EnrichedItem) :
    ProgInv σ0 n a ((s.1).write s.2 a, s.2) := by
  refine ⟨h.freshLe, ?_, ?_, ?_⟩
  · simpa [Store.write] using h.validLt
  · intro r hr
    rw [Store.read_write_ne (Nat.ne_of_gt (Nat.lt_of_lt_of_le hr h.freshLe))]
    exact h.readsLow r hr
  · exact Store.read_write_self h.validLt

theorem progInv_sortProg {σ0 : Store} {n : Nat} {c : List EnrichedItem}
    {s : Store × Nat} (f : FilterSpec) (h : ProgInv σ0 n c s) :
    ProgInv σ0 n (sortStep f c) (sortProg f s) := by
  by_cases h1 : f.sort = "asc"
  · have h2 : ¬ f.sort = "desc" := by rw [h1]; decide
    simp only [sortProg, sortStep, if_pos h1, if_neg h2]
    rw [h.contentEq]
    exact progInv_write h (c.mergeSort priceAsc)
  · by_cases h2 : f.sort = "desc"
    · simp only [sortProg, sortStep, if_pos h2, if_neg h1]
      rw [h.contentEq]
      exact progInv_write h (c.mergeSort priceDesc)
    · simp only [sortProg, sortStep, if_neg h1, if_neg h2]
      exact h

/-- Claim C8: the pipeline allocates a new array for its result and never
mutates the input array — after it runs, the input reference still holds
the same items in the same order, while the result reference holds the
pure pipeline output. -/
theorem c8_no_mutation (σ0 : Store) (itemsRef : Nat) (f : FilterSpec)
    (h : itemsRef < σ0.arrays.length) :
    ((filteredProg σ0 itemsRef f).1).read itemsRef = σ0.read itemsRef
    ∧ ((filteredProg σ0 itemsRef f).1).read (filteredProg σ0 itemsRef f).2
        = filtered (σ0.read itemsRef) f := by
  have h0 : ProgInv σ0 σ0.arrays.length (σ0.read itemsRef)
      (σ0.alloc (σ0.read itemsRef)) := by
    refine ⟨Nat.le_refl _, by simp [Store.alloc], ?_, Store.read_alloc_self _ _⟩
    intro r hr
    exact Store.read_alloc_lt hr
  have hfin : ProgInv σ0 σ0.arrays.length
      (sortStep f (priceStep f (categoryStep f (searchStep f (σ0.read itemsRef)))))
      (filteredProg σ0 itemsRef f) :=
    progInv_sortProg f (progInv_priceProg f (progInv_categoryProg f
      (progInv_searchProg f h0)))
  exact ⟨hfin.readsLow itemsRef h, hfin.contentEq⟩

/-- Witness for c8_no_mutation on a concrete one-array store. -/
theorem c8_no_mutation_witness :
    ((filteredProg
        { arrays := [[{ id := some 1, title := "a", url := "", thumbnailUrl := "",
                        category := "Laptop", price := 597 }]] }
        0
        { search := "", category := "", minPrice := PriceField.unset,
          maxPrice := PriceField.unset, sort := "desc" }).1).read 0
      = Store.read
          { arrays := [[{ id := some 1, title := "a", url := "", thumbnailUrl := "",
                          category := "Laptop", price := 597 }]] } 0
    ∧ ((filteredProg
        { arrays := [[{ id := some 1, title := "a", url := "", thumbnailUrl := "",
                        category := "Laptop", price := 597 }]] }
        0
        { search := "", category := "", minPrice := PriceField.unset,
          maxPrice := PriceField.unset, sort := "desc" }).1).read
        (filteredProg
          { arrays := [[{ id := some 1, title := "a", url := "", thumbnailUrl := "",
                          category := "Laptop", price := 597 }]] }
          0
          { search := "", category := "", minPrice := PriceField.unset,
            maxPrice := PriceField.unset, sort := "desc" }).2
      = filtered
          (Store.read
            { arrays := [[{ id := some 1, title := "a", url := "", thumbnailUrl := "",
                            category := "Laptop", price := 597 }]] } 0)
          { search := "", category := "", minPrice := PriceField.unset,
            maxPrice := PriceField.unset, sort := "desc" } :=
  c8_no_mutation _ 0 _ (by decide)

/-- The Auth Gate (PrivateRoute, lines 64-68): protected content renders
only when the stored token is truthy; none models a missing token and
the empty string is falsy in JavaScript. -/
def authGate (token : Option String) : Bool :=
  match token with
  | none => false
  | some s => !s.isEmpty

/-- The response body shape seen by the unwrapping expression
of line 233: the two candidate paths data.data.photos.data and
data.photos.data; none models a missing path. -/
structure Payload where
  dataPhotosData : Option (List RawItem)
  photosData : Option (List RawItem)
deriving DecidableEq

/-- data?.data?.photos?.data || data?.photos?.data || [] (line 233); an
empty array present at the first path is truthy and is used as is. -/
def extractArr (p : Payload) : List RawItem :=
  match p.dataPhotosData with
  | some a => a
  | none =>
    match p.photosData with
    | some a => a
    | none => []

/-- Outcome of the fetch of line 228 as seen by the load code:
networkError is a rejected fetch promise and response carries the HTTP
success flag res.ok together with the parsed JSON body, none standing
for a body on which res.json() throws. -/
inductive FetchResult where
  | networkError
  | response (ok : Bool) (body : Option Payload)
deriving DecidableEq

/-- Observable outcome of the load flow: a redirect to login with the
token untouched, a Ready state with the augmented items, or the catch
path that clears the token and redirects. -/
inductive LoadResult where
  | redirectLogin
  | ready (items : List EnrichedItem)
  | failRedirect
deriving DecidableEq

/-- arr.map(augment) (line 235), with an oracle giving the random unit
num/den drawn at each position. -/
def augmentAll (rnum rden : Nat → Nat) : List RawItem → Nat → List EnrichedItem
  | [], _ => []
  | x :: xs, i => augment x (rnum i) (rden i) :: augmentAll rnum rden xs (i + 1)

/-- ProductList.load (lines 218-247): a missing or empty token redirects
to login without touching storage; a rejected fetch or a body on which
res.json() throws lands in the catch block, which removes the token and
navigates to login; any body that parses as JSON — whatever the HTTP
status, since res.ok is never inspected — is unwrapped, augmented and
shown.  The returned pair is the stored token after the run and the
outcome. -/
def load (token : Option String) (res : FetchResult) (rnum rden : Nat → Nat) :
    Option String × LoadResult :=
  match token with
  | none => (none, LoadResult.redirectLogin)
  | some t =>
    if t.isEmpty then (some t, LoadResult.redirectLogin)
    else
      match res with
      | FetchResult.networkError => (none, LoadResult.failRedirect)
      | FetchResult.response _ none => (none, LoadResult.failRedirect)
      | FetchResult.response _ (some p) =>
          (some t, LoadResult.ready (augmentAll rnum rden (extractArr p) 0))

/-- Claim C1 is false as stated: a non-success response whose body still
parses as JSON — here an error object carrying no photos — is a fetch
failure in the sense of the claim, yet load keeps the stored token, ends
in Ready with an empty catalog, and the Auth Gate still reports
authenticated, because the source never inspects res.ok. -/
theorem c1_counterexample :
    load (some "tok")
        (FetchResult.response false (some { dataPhotosData := none, photosData := none }))
        (fun _ => 0) (fun _ => 1)
      = (some "tok", LoadResult.ready [])
    ∧ authGate (some "tok") = true :=
  ⟨rfl, rfl⟩

/-- Claim C1 (amended): during catalog load, a network error or a
response body that fails JSON parsing clears the stored session token
and redirects to login, after which the Auth Gate reports
unauthenticated; but a response whose body parses as JSON — success or
not, well-shaped or not — never clears the token and transitions to
Ready with whatever items the unwrapping extracts. -/
theorem c1_load_failure (t : String) (ht : ¬t.isEmpty = true) (rnum rden : Nat → Nat) :
    load (some t) FetchResult.networkError rnum rden = (none, LoadResult.failRedirect)
    ∧ (∀ ok, load (some t) (FetchResult.response ok none) rnum rden
        = (none, LoadResult.failRedirect))
    ∧ authGate none = false
    ∧ (∀ ok p, load (some t) (FetchResult.response ok (some p)) rnum rden
        = (some t, LoadResult.ready (augmentAll rnum rden (extractArr p) 0))) := by
  simp [load, authGate, ht]

/-- Witness for c1_load_failure at the concrete token tok. -/
theorem c1_load_failure_witness :
    load (some "tok") FetchResult.networkError (fun _ => 0) (fun _ => 1)
      = (none, LoadResult.failRedirect)
    ∧ (∀ ok, load (some "tok") (FetchResult.response ok none) (fun _ => 0) (fun _ => 1)
        = (none, LoadResult.failRedirect))
    ∧ authGate none = false
    ∧ (∀ ok p, load (some "tok") (FetchResult.response ok (some p)) (fun _ => 0) (fun _ => 1)
        = (some "tok",
           LoadResult.ready (augmentAll (fun _ => 0) (fun _ => 1) (extractArr p) 0))) :=
  c1_load_failure "tok" (by decide) (fun _ => 0) (fun _ => 1)

end App
